import Mathlib

/-!
Verification of the avalonc front end (lexer and FQN utility) against its
natural-language specification.  The definitions below are a shallow
embedding of the C sources: `src/src/lexer/lexer.c`, `src/src/common/token_type.h`
and `src/src/common/fqn.c`.  Pointers into the source buffer are modelled as
natural-number offsets into a `List Char`; the terminating NUL of the C string
lives at offset `src.length` and any read at or beyond that offset yields the
sentinel `'\x00'` (the C code's out-of-bounds reads are modelled by the same
sentinel).  The C functions that loop are given an explicit fuel parameter;
with fuel at least `src.length + 2` every loop in the C code terminates within
the fuel because each iteration advances the cursor by at least one position,
so the fuelled functions agree with the C code on every run examined here.
`exit(74)` (process termination) is modelled by returning `none`, and writes
to `stderr` are modelled by the `stderrLog` field threaded through the state.
-/

namespace Avalon

/-- TokenType mirrors `enum TokenType` from `src/src/common/token_type.h`.
`AVL_NO_INDENT` is referenced by `lexer.c` (`handleWhitespace`) although the
checked-in `token_type.h` iteration does not list it; it is included so the
lexer code can be embedded as written. -/
inductive TokenType where
  | AVL_DOT
  | AVL_LOGICAL_NOT
  | AVL_BITWISE_NOT
  | AVL_BITWISE_OR
  | AVL_BITWISE_AND
  | AVL_BITWISE_XOR
  | AVL_LEFT_PAREN
  | AVL_RIGHT_PAREN
  | AVL_LEFT_BRACE
  | AVL_RIGHT_BRACE
  | AVL_LEFT_BRACKET
  | AVL_RIGHT_BRACKET
  | AVL_VERTICAL_BAR
  | AVL_UNDERSCORE
  | AVL_PLUS
  | AVL_DIV
  | AVL_MOD
  | AVL_QUOTE
  | AVL_COMMA
  | AVL_NEWLINE
  | AVL_INDENT
  | AVL_DEDENT
  | AVL_NO_INDENT
  | AVL_EQUAL
  | AVL_EQUAL_EQUAL
  | AVL_MATCH
  | AVL_NOT_EQUAL
  | AVL_NOT_MATCH
  | AVL_GREATER
  | AVL_GREATER_EQUAL
  | AVL_LESS
  | AVL_LESS_EQUAL
  | AVL_MINUS
  | AVL_RETURN_TYPE
  | AVL_NS_OPEN
  | AVL_NS_CLOSE
  | AVL_LOGICAL_OR
  | AVL_LOGICAL_AND
  | AVL_LEFT_SHIFT
  | AVL_RIGHT_SHIFT
  | AVL_COLON
  | AVL_COLON_COLON
  | AVL_MUL
  | AVL_POW
  | AVL_IDENTIFIER
  | AVL_STRING
  | AVL_CLASSICAL_INT
  | AVL_CLASSICAL_FLOAT
  | AVL_CLASSICAL_HEX
  | AVL_CLASSICAL_OCT
  | AVL_CLASSICAL_BIT
  | AVL_CLASSICAL_DEC
  | AVL_QUANTUM_INT
  | AVL_QUANTUM_FLOAT
  | AVL_QUANTUM_HEX
  | AVL_QUANTUM_OCT
  | AVL_QUANTUM_BIT
  | AVL_QUANTUM_DEC
  | AVL_IMPORT
  | AVL_NAMESPACE
  | AVL_PUBLIC
  | AVL_PRIVATE
  | AVL_PTR
  | AVL_REF
  | AVL_DREF
  | AVL_CONST
  | AVL_TYPE
  | AVL_DEF
  | AVL_VAR
  | AVL_VAL
  | AVL_CAST
  | AVL_SWITCH
  | AVL_CASE
  | AVL_DEFAULT
  | AVL_IF
  | AVL_ELIF
  | AVL_ELSE
  | AVL_FOR
  | AVL_EMPTY
  | AVL_WHILE
  | AVL_CONTINUE
  | AVL_BREAK
  | AVL_RETURN
  | AVL_PASS
  | AVL_IN
  | AVL_NEXT
  | AVL_PREV
  | AVL_IS
  | AVL_UNIQUE
  | AVL_EOF
  | AVL_ERROR
deriving DecidableEq, BEq, Repr

open TokenType

/-- Payload of a token: `struct Token` stores a pointer either into the
source buffer (normal tokens: start pointer plus length) or to a static
diagnostic message (error tokens). -/
inductive TokenSpan where
  | lexeme (start length : Nat)
  | message (text : String)
deriving DecidableEq, BEq, Repr

/-- Token mirrors `struct Token` from `src/src/common/token.h` as used by
`lexer.c` (`makeToken` / `errorToken`): a kind, the file identifier, the span
or message, and the line/column at creation time. -/
structure Token where
  type : TokenType
  file : String
  span : TokenSpan
  line : Nat
  column : Nat
deriving DecidableEq, BEq, Repr

/-- Lexer mirrors the fields of `struct Lexer` that `lexer.c` actually reads
and writes (`newLexer` initialises exactly these).  `start` and `pos` are the
offsets corresponding to the C pointers `lexer->start` and `lexer->current`.
`stderrLog` models the process standard-error stream that `fprintf(stderr,...)`
appends to. -/
structure Lexer where
  file : String
  src : List Char
  start : Nat
  pos : Nat
  line : Nat
  column : Nat
  ignore_whitespace : Bool
  first_indentation_found : Bool
  is_first_indentation_space : Bool
  first_indentation_line : Nat
  first_indentation_size : Nat
  last_indentation_size : Nat
  dedentation_count : Nat
  indentation_count : Nat
  stderrLog : List String
deriving DecidableEq, BEq, Repr

/-- Decrement of a C `size_t`: `x--` wraps to `2^64 - 1` when `x` is zero.
Used at the decrement sites that the C code does not guard. -/
def decSizeT (n : Nat) : Nat :=
  if n = 0 then 18446744073709551615 else n - 1

/-- Character of the NUL-terminated buffer at offset `i`: the byte at `i` for
`i < src.length`, and the terminating NUL (or, beyond it, the sentinel that
models an out-of-bounds read) otherwise. -/
def peekAt (src : List Char) (i : Nat) : Char :=
  src.getD i '\x00'

/-- peek: `*lexer->current`. -/
def peek (l : Lexer) : Char :=
  peekAt l.src l.pos

/-- isAtEnd: `*lexer->current == '\0'`. -/
def isAtEnd (l : Lexer) : Bool :=
  peek l == '\x00'

/-- isAtStart: the C code compares characters, `*lexer->current == *lexer->source`,
not positions, so this also holds at any later offset whose character equals the
first character of the source. -/
def isAtStart (l : Lexer) : Bool :=
  peek l == peekAt l.src 0

/-- advance: consume and return the current character, incrementing the column. -/
def advance (l : Lexer) : Lexer × Char :=
  ({ l with pos := l.pos + 1, column := l.column + 1 }, peekAt l.src l.pos)

/-- match (renamed: `match` is reserved in Lean): conditionally consume the
current character when it equals `expected`. -/
def matchChar (l : Lexer) (expected : Char) : Lexer × Bool :=
  if isAtEnd l then (l, false)
  else if peek l ≠ expected then (l, false)
  else ({ l with pos := l.pos + 1, column := l.column + 1 }, true)

/-- peekNext: character one ahead, or NUL at end of input. -/
def peekNext (l : Lexer) : Char :=
  if isAtEnd l then '\x00' else peekAt l.src (l.pos + 1)

/-- peekBack: character one behind, or NUL "at the start" (per `isAtStart`). -/
def peekBack (l : Lexer) : Char :=
  if isAtStart l then '\x00' else peekAt l.src (l.pos - 1)

/-- isDigit from `lexer.c`: note it also accepts the hexadecimal digits A-F. -/
def isDigit (c : Char) : Bool :=
  (decide ('0' ≤ c) && decide (c ≤ '9')) || (decide ('A' ≤ c) && decide (c ≤ 'F'))

/-- isLetter from `lexer.c`. -/
def isLetter (c : Char) : Bool :=
  (decide ('a' ≤ c) && decide (c ≤ 'z')) || (decide ('A' ≤ c) && decide (c ≤ 'Z'))

/-- isAlpha from `lexer.c`: letter or underscore. -/
def isAlpha (c : Char) : Bool :=
  (decide ('a' ≤ c) && decide (c ≤ 'z')) || (decide ('A' ≤ c) && decide (c ≤ 'Z')) || c == '_'

/-- makeToken: token spanning from `lexer->start` to `lexer->current`. -/
def makeToken (l : Lexer) (type : TokenType) : Token :=
  { type := type, file := l.file, span := .lexeme l.start (l.pos - l.start),
    line := l.line, column := l.column }

/-- errorToken: `AVL_ERROR` token carrying a diagnostic message. -/
def errorToken (l : Lexer) (message : String) : Token :=
  { type := AVL_ERROR, file := l.file, span := .message message,
    line := l.line, column := l.column }

/-- newLexer: initial lexer state over a source buffer. -/
def newLexer (file : String) (source : List Char) : Lexer :=
  { file := file, src := source, start := 0, pos := 0, line := 1, column := 1,
    ignore_whitespace := true, first_indentation_found := false,
    is_first_indentation_space := false, first_indentation_line := 0,
    first_indentation_size := 0, last_indentation_size := 0,
    dedentation_count := 0, indentation_count := 0, stderrLog := [] }

/-- skipSingleComment's scanning loop: `while (peek != '\n' && !isAtEnd) advance;`. -/
def skipSingleCommentLoop : Nat → Lexer → Lexer
  | 0, l => l
  | fuel + 1, l =>
    if peek l ≠ '\n' ∧ isAtEnd l = false then skipSingleCommentLoop fuel (advance l).1
    else l

/-- skipSingleComment: skip to the next newline, then consume the newline itself
("we consume the newline since comments may appear at the beginning of a source"). -/
def skipSingleComment (fuel : Nat) (l : Lexer) : Lexer :=
  let l := skipSingleCommentLoop fuel l
  if peek l = '\n' ∧ isAtEnd l = false then
    let l := (advance l).1
    { l with line := l.line + 1, column := 1 }
  else l

/-- skipMultiComment's main loop, with the nesting level threaded explicitly.
On a close marker the C code advances twice and, when the comment is still
nested, falls through to the newline bookkeeping and the unconditional
`advance` at the bottom of the loop body. -/
def skipMultiCommentLoop : Nat → Nat → Lexer → Lexer × Bool
  | 0, _, l => (l, false)
  | fuel + 1, levels, l =>
    if isAtEnd l then (l, false)
    else
      let levels := if peek l = '-' ∧ peekNext l = '[' then levels + 1 else levels
      if peek l = ']' ∧ peekNext l = '-' then
        let l := (advance l).1
        let l := (advance l).1
        if levels = 0 then (l, true)
        else
          let levels := levels - 1
          let l := if peek l = '\n' then { l with line := l.line + 1, column := 1 } else l
          skipMultiCommentLoop fuel levels (advance l).1
      else
        let l := if peek l = '\n' then { l with line := l.line + 1, column := 1 } else l
        skipMultiCommentLoop fuel levels (advance l).1

/-- skipMultiComment: run the loop; when end of input is reached while the
comment is unterminated, report on stderr; finally consume a trailing newline
if one is present. -/
def skipMultiComment (fuel : Nat) (l : Lexer) : Lexer :=
  let startLine := l.line
  let r := skipMultiCommentLoop fuel 0 l
  let l := r.1
  let l :=
    if isAtEnd l = true ∧ r.2 = false then
      { l with stderrLog := l.stderrLog ++
          ["Unterminated multi line comment starting at line " ++ toString startLine ++ "."] }
    else l
  if peek l = '\n' ∧ isAtEnd l = false then
    let l := (advance l).1
    { l with line := l.line + 1, column := 1 }
  else l

/-- skipWhitespace: discard spaces, tabulations, carriage returns, and both
comment forms.  Note the multi-line branch consumes the leading `-` before
delegating to `skipMultiComment`. -/
def skipWhitespace : Nat → Lexer → Lexer
  | 0, l => l
  | fuel + 1, l =>
    let c := peek l
    if c = '\r' ∨ c = '\t' ∨ c = ' ' then skipWhitespace fuel (advance l).1
    else if c = '-' then
      if peekNext l = '-' then skipWhitespace fuel (skipSingleComment fuel l)
      else if peekNext l = '[' then skipWhitespace fuel (skipMultiComment fuel (advance l).1)
      else l
    else l

/-- Length of the current lexeme: `lexer->current - lexer->start`. -/
def lexemeLen (l : Lexer) : Nat :=
  l.pos - l.start

/-- Character at offset `i` inside the current lexeme: `lexer->start[i]`. -/
def startChar (l : Lexer) (i : Nat) : Char :=
  peekAt l.src (l.start + i)

/-- handleKeyword: the lexeme is the keyword exactly when its length is
`s + len` and its bytes from offset `s` match `rest` (the C `memcmp`). -/
def handleKeyword (l : Lexer) (s len : Nat) (rest : List Char) (type : TokenType) :
    Token × Lexer :=
  if lexemeLen l = s + len ∧ (l.src.drop (l.start + s)).take len = rest then
    (makeToken l type, l)
  else
    (makeToken l AVL_IDENTIFIER, l)

/-- identifier's scanning loop: `while (isAlpha(peek) || isDigit(peek)) advance;`. -/
def identLoop : Nat → Lexer → Lexer
  | 0, l => l
  | fuel + 1, l =>
    if isAlpha (peek l) = true ∨ isDigit (peek l) = true then identLoop fuel (advance l).1
    else l

/-- identifier: scan the maximal identifier run, then dispatch on its first
characters through the keyword trie of `lexer.c`; every `break` in the C
switch falls through to the final `AVL_IDENTIFIER`. -/
def identifier (fuel : Nat) (l : Lexer) : Token × Lexer :=
  let l := identLoop fuel l
  let c0 := startChar l 0
  if c0 = 'a' then handleKeyword l 1 2 ['n', 'd'] AVL_LOGICAL_AND
  else if c0 = 'b' then
    if lexemeLen l > 1 then
      let c1 := startChar l 1
      if c1 = 'a' then handleKeyword l 2 2 ['n', 'd'] AVL_BITWISE_AND
      else if c1 = 'n' then handleKeyword l 2 2 ['o', 't'] AVL_BITWISE_NOT
      else if c1 = 'o' then handleKeyword l 2 1 ['r'] AVL_BITWISE_OR
      else if c1 = 'r' then handleKeyword l 2 3 ['e', 'a', 'k'] AVL_BREAK
      else (makeToken l AVL_IDENTIFIER, l)
    else (makeToken l AVL_IDENTIFIER, l)
  else if c0 = 'c' then
    if lexemeLen l > 1 then
      let c1 := startChar l 1
      if c1 = 'a' then
        if lexemeLen l ≤ 2 then (makeToken l AVL_IDENTIFIER, l)
        else if startChar l 2 ≠ 's' then (makeToken l AVL_IDENTIFIER, l)
        else if lexemeLen l > 3 then
          let c3 := startChar l 3
          if c3 = 'e' then handleKeyword l 3 1 ['e'] AVL_CASE
          else if c3 = 't' then handleKeyword l 3 1 ['t'] AVL_CAST
          else (makeToken l AVL_IDENTIFIER, l)
        else (makeToken l AVL_IDENTIFIER, l)
      else if c1 = 'o' then
        if lexemeLen l ≤ 2 then (makeToken l AVL_IDENTIFIER, l)
        else if startChar l 2 ≠ 'n' then (makeToken l AVL_IDENTIFIER, l)
        else if lexemeLen l > 3 then
          let c3 := startChar l 3
          if c3 = 's' then handleKeyword l 4 1 ['t'] AVL_CONST
          else if c3 = 't' then handleKeyword l 4 4 ['i', 'n', 'u', 'e'] AVL_CONTINUE
          else (makeToken l AVL_IDENTIFIER, l)
        else (makeToken l AVL_IDENTIFIER, l)
      else (makeToken l AVL_IDENTIFIER, l)
    else (makeToken l AVL_IDENTIFIER, l)
  else if c0 = 'd' then
    if lexemeLen l > 1 then
      let c1 := startChar l 1
      if c1 = 'e' then
        if lexemeLen l ≤ 2 then (makeToken l AVL_IDENTIFIER, l)
        else if startChar l 2 ≠ 'f' then (makeToken l AVL_IDENTIFIER, l)
        else if lexemeLen l > 3 then
          let c3 := startChar l 3
          if c3 = 'a' then handleKeyword l 4 3 ['u', 'l', 't'] AVL_DEFAULT
          else if c3 = 'f' then handleKeyword l 3 1 ['f'] AVL_DEF
          else (makeToken l AVL_IDENTIFIER, l)
        else (makeToken l AVL_IDENTIFIER, l)
      else if c1 = 'r' then handleKeyword l 2 2 ['e', 'f'] AVL_DREF
      else (makeToken l AVL_IDENTIFIER, l)
    else (makeToken l AVL_IDENTIFIER, l)
  else if c0 = 'e' then
    if lexemeLen l > 1 then
      let c1 := startChar l 1
      if c1 = 'l' then
        if lexemeLen l > 2 then
          let c2 := startChar l 2
          if c2 = 'i' then handleKeyword l 3 1 ['f'] AVL_ELIF
          else if c2 = 's' then handleKeyword l 3 1 ['e'] AVL_ELSE
          else (makeToken l AVL_IDENTIFIER, l)
        else (makeToken l AVL_IDENTIFIER, l)
      else if c1 = 'm' then handleKeyword l 2 3 ['p', 't', 'y'] AVL_EMPTY
      else (makeToken l AVL_IDENTIFIER, l)
    else (makeToken l AVL_IDENTIFIER, l)
  else if c0 = 'f' then handleKeyword l 1 2 ['o', 'r'] AVL_FOR
  else if c0 = 'i' then
    if lexemeLen l > 1 then
      let c1 := startChar l 1
      if c1 = 'f' then handleKeyword l 1 1 ['f'] AVL_IF
      else if c1 = 'm' then handleKeyword l 2 4 ['p', 'o', 'r', 't'] AVL_IMPORT
      else if c1 = 'n' then handleKeyword l 1 1 ['n'] AVL_IN
      else if c1 = 's' then handleKeyword l 1 1 ['s'] AVL_IS
      else (makeToken l AVL_IDENTIFIER, l)
    else (makeToken l AVL_IDENTIFIER, l)
  else if c0 = 'l' then handleKeyword l 1 2 ['s', 'h'] AVL_LEFT_SHIFT
  else if c0 = 'n' then
    if lexemeLen l > 1 then
      let c1 := startChar l 1
      if c1 = 'a' then handleKeyword l 2 7 ['m', 'e', 's', 'p', 'a', 'c', 'e'] AVL_NAMESPACE
      else if c1 = 'e' then handleKeyword l 2 2 ['x', 't'] AVL_NEXT
      else if c1 = 'o' then handleKeyword l 2 1 ['t'] AVL_LOGICAL_NOT
      else (makeToken l AVL_IDENTIFIER, l)
    else (makeToken l AVL_IDENTIFIER, l)
  else if c0 = 'o' then handleKeyword l 1 1 ['r'] AVL_LOGICAL_OR
  else if c0 = 'p' then
    if lexemeLen l > 1 then
      let c1 := startChar l 1
      if c1 = 'a' then handleKeyword l 2 2 ['s', 's'] AVL_PASS
      else if c1 = 'r' then
        if lexemeLen l > 2 then
          let c2 := startChar l 2
          if c2 = 'e' then handleKeyword l 3 1 ['v'] AVL_PREV
          else if c2 = 'i' then handleKeyword l 3 4 ['v', 'a', 't', 'e'] AVL_PRIVATE
          else (makeToken l AVL_IDENTIFIER, l)
        else (makeToken l AVL_IDENTIFIER, l)
      else if c1 = 't' then handleKeyword l 2 1 ['r'] AVL_PTR
      else if c1 = 'u' then handleKeyword l 2 4 ['b', 'l', 'i', 'c'] AVL_PUBLIC
      else (makeToken l AVL_IDENTIFIER, l)
    else (makeToken l AVL_IDENTIFIER, l)
  else if c0 = 'r' then
    if lexemeLen l > 1 then
      let c1 := startChar l 1
      if c1 = 'e' then
        if lexemeLen l > 2 then
          let c2 := startChar l 2
          if c2 = 'f' then handleKeyword l 2 1 ['f'] AVL_REF
          else if c2 = 't' then handleKeyword l 3 3 ['u', 'r', 'n'] AVL_RETURN
          else (makeToken l AVL_IDENTIFIER, l)
        else (makeToken l AVL_IDENTIFIER, l)
      else if c1 = 's' then handleKeyword l 2 1 ['h'] AVL_RIGHT_SHIFT
      else (makeToken l AVL_IDENTIFIER, l)
    else (makeToken l AVL_IDENTIFIER, l)
  else if c0 = 's' then handleKeyword l 1 5 ['w', 'i', 't', 'c', 'h'] AVL_SWITCH
  else if c0 = 't' then handleKeyword l 1 3 ['y', 'p', 'e'] AVL_TYPE
  else if c0 = 'u' then handleKeyword l 1 5 ['n', 'i', 'q', 'u', 'e'] AVL_UNIQUE
  else if c0 = 'v' then
    if lexemeLen l ≤ 1 then (makeToken l AVL_IDENTIFIER, l)
    else if startChar l 1 ≠ 'a' then (makeToken l AVL_IDENTIFIER, l)
    else if lexemeLen l > 2 then
      let c2 := startChar l 2
      if c2 = 'r' then handleKeyword l 2 1 ['r'] AVL_VAR
      else if c2 = 'l' then handleKeyword l 2 1 ['l'] AVL_VAL
      else (makeToken l AVL_IDENTIFIER, l)
    else (makeToken l AVL_IDENTIFIER, l)
  else if c0 = 'w' then handleKeyword l 1 4 ['h', 'i', 'l', 'e'] AVL_WHILE
  else if c0 = 'x' then handleKeyword l 1 2 ['o', 'r'] AVL_BITWISE_XOR
  else (makeToken l AVL_IDENTIFIER, l)

/-- number's digit-scanning loop: `while (isDigit(peek)) advance;`. -/
def digitRun : Nat → Lexer → Lexer
  | 0, l => l
  | fuel + 1, l =>
    if isDigit (peek l) = true then digitRun fuel (advance l).1
    else l

/-- Body of `number` after the domain tag has been settled: digits, optional
fractional part, optional format letter.  The two format chains for
fractional literals have no final `else`, so control falls out of the chain
to `fprintf` + `exit(74)` ("[Lexer bug] We finished lexing a number but
missed a case."); that process termination is modelled by `none`. -/
def numberBody (fuel : Nat) (l : Lexer) (is_classical : Bool) : Option (Token × Lexer) :=
  let l := digitRun fuel l
  let fr :=
    if peek l = '.' ∧ isDigit (peekNext l) = true then (digitRun fuel (advance l).1, true)
    else (l, false)
  let l := fr.1
  let is_decimal := fr.2
  let format := peek l
  if isLetter format = true then
    let l := (advance l).1
    if is_classical && !is_decimal then
      some ((if format = 'b' then makeToken l AVL_CLASSICAL_BIT
        else if format = 'h' then makeToken l AVL_CLASSICAL_HEX
        else if format = 'o' then makeToken l AVL_CLASSICAL_OCT
        else if format = 'd' then makeToken l AVL_CLASSICAL_INT
        else errorToken l "Unexpected data format for classical integers. Valid formats for integers are: <b> for bits, <h> for hexadecimals, <o> for octals and <d> for base 10."), l)
    else if is_classical && is_decimal then
      if format = 'f' then some (makeToken l AVL_CLASSICAL_FLOAT, l)
      else if format = 'd' then some (makeToken l AVL_CLASSICAL_DEC, l)
      else none
    else if !is_classical && !is_decimal then
      some ((if format = 'b' then makeToken l AVL_QUANTUM_BIT
        else if format = 'h' then makeToken l AVL_QUANTUM_HEX
        else if format = 'o' then makeToken l AVL_QUANTUM_OCT
        else if format = 'd' then makeToken l AVL_QUANTUM_INT
        else errorToken l "Unexpected data format for quantum integers. Valid formats for integers are: <b> for bits, <h> for hexadecimals, <o> for octals and <d> for base 10."), l)
    else
      if format = 'f' then some (makeToken l AVL_QUANTUM_FLOAT, l)
      else if format = 'd' then some (makeToken l AVL_QUANTUM_DEC, l)
      else none
  else
    if is_classical && !is_decimal then some (makeToken l AVL_CLASSICAL_INT, l)
    else if is_classical && is_decimal then some (makeToken l AVL_CLASSICAL_FLOAT, l)
    else if !is_classical && !is_decimal then some (makeToken l AVL_QUANTUM_INT, l)
    else some (makeToken l AVL_QUANTUM_FLOAT, l)

/-- number: handle the optional classical/quantum domain tag after a leading
zero, then defer to `numberBody`. -/
def number (fuel : Nat) (l : Lexer) : Option (Token × Lexer) :=
  if peekBack l = '0' ∧ (peek l = 'c' ∨ peek l = 'q') then
    let is_classical := peek l ≠ 'q'
    numberBody fuel ((advance l).1) is_classical
  else if peekBack l = '0' ∧ isLetter (peek l) = true ∧ isDigit (peek l) = false ∧
      peek l ≠ 'c' ∧ peek l ≠ 'q' then
    some (errorToken l "Expected <c> or <q> to indicate whether we have classical or quantum data.", l)
  else
    numberBody fuel l true

/-- Counting loop inside `handleWhitespace`: consume a maximal run of the
given whitespace character, returning the new state and the run length. -/
def wsRun (target : Char) : Nat → Lexer → Lexer × Nat
  | 0, l => (l, 0)
  | fuel + 1, l =>
    if peek l = target then
      let r := wsRun target fuel (advance l).1
      (r.1, r.2 + 1)
    else (l, 0)

/-- handleWhitespace: significant whitespace at the start of a line, emitting
NO_INDENT, INDENT or DEDENT (or NEWLINE for a blank line, or an error token).
The one leading space or tab was already consumed by `lexToken`'s `advance`. -/
def handleWhitespace (fuel : Nat) (l : Lexer) (is_space : Bool) : Token × Lexer :=
  if l.ignore_whitespace = true then
    (errorToken l (if is_space then "Unexpected blank space." else "Unexpected tabulation."), l)
  else
    let l := { l with ignore_whitespace := true }
    if l.first_indentation_found = true ∧ is_space = true ∧
        l.is_first_indentation_space = false then
      (errorToken l "Indentation using tabulation is already is effect hence blank space cannot be used for the same.", l)
    else if l.first_indentation_found = true ∧ is_space = false ∧
        l.is_first_indentation_space = true then
      (errorToken l "Indentation using blank spaces is already is effect hence tabulation cannot be used for the same.", l)
    else
      let r := wsRun (if is_space then ' ' else '\t') fuel l
      let l := r.1
      let whitespace_size := r.2
      if peek l = '\n' then
        let l := (advance l).1
        let t := makeToken l AVL_NEWLINE
        (t, { l with line := l.line + 1, column := 1, ignore_whitespace := false })
      else
        let whitespace_size := whitespace_size + 1
        if l.first_indentation_found = false then
          (makeToken l AVL_INDENT,
           { l with first_indentation_found := true,
                    is_first_indentation_space := is_space,
                    first_indentation_line := l.line,
                    first_indentation_size := whitespace_size,
                    last_indentation_size := whitespace_size,
                    indentation_count := 1 })
        else
          if whitespace_size % l.first_indentation_size ≠ 0 then
            (errorToken l (if is_space then
              "Expected a valid indentation: the number of spaces that form a valid indentation must be a multiple of the number of spaces that form the first indentation."
            else
              "Expected a valid indentation: the number of tabulations that form a valid indentation must be a multiple of the number of tabulations that form the first indentation."), l)
          else if whitespace_size = l.last_indentation_size then
            (makeToken l AVL_NO_INDENT, l)
          else if whitespace_size > l.last_indentation_size then
            (makeToken l AVL_INDENT,
             { l with indentation_count := whitespace_size / l.first_indentation_size,
                      last_indentation_size := whitespace_size })
          else
            (makeToken l AVL_DEDENT,
             { l with dedentation_count :=
                        decSizeT ((l.last_indentation_size - whitespace_size) /
                          l.first_indentation_size),
                      indentation_count := decSizeT l.indentation_count,
                      last_indentation_size := whitespace_size })

/-- Dispatch of `lexToken`'s switch on the character just consumed. -/
def lexDispatch (fuel : Nat) (c : Char) (l : Lexer) : Option (Token × Lexer) :=
  if c = '.' then some (makeToken l AVL_DOT, l)
  else if c = '!' then
    let m := matchChar l '='
    some (makeToken m.1 (if m.2 then AVL_NOT_EQUAL else AVL_LOGICAL_NOT), m.1)
  else if c = '~' then some (makeToken l AVL_BITWISE_NOT, l)
  else if c = '^' then some (makeToken l AVL_BITWISE_XOR, l)
  else if c = '+' then some (makeToken l AVL_PLUS, l)
  else if c = '-' then
    let m := matchChar l '>'
    if m.2 then some (makeToken m.1 AVL_RETURN_TYPE, m.1)
    else
      let m := matchChar l '/'
      if m.2 then some (makeToken m.1 AVL_NS_OPEN, m.1)
      else some (makeToken l AVL_MINUS, l)
  else if c = '*' then
    let m := matchChar l '*'
    some (makeToken m.1 (if m.2 then AVL_POW else AVL_MUL), m.1)
  else if c = '/' then
    let m := matchChar l '-'
    some (makeToken m.1 (if m.2 then AVL_NS_CLOSE else AVL_MINUS), m.1)
  else if c = '%' then some (makeToken l AVL_MOD, l)
  else if c = '\'' then some (makeToken l AVL_QUOTE, l)
  else if c = '"' then some (errorToken l "Strings are not currently supported.", l)
  else if c = ',' then some (makeToken l AVL_COMMA, l)
  else if c = ':' then some (makeToken l AVL_COLON, l)
  else if c = '=' then
    let m1 := matchChar l '='
    if m1.2 then
      let m2 := matchChar m1.1 '='
      if m2.2 then some (makeToken m2.1 AVL_MATCH, m2.1)
      else some (makeToken m2.1 AVL_EQUAL_EQUAL, m2.1)
    else
      let m3 := matchChar l '!'
      if m3.2 then
        let m4 := matchChar m3.1 '='
        if m4.2 then some (makeToken m4.1 AVL_NOT_MATCH, m4.1)
        else some (errorToken m4.1 "Unterminated match operator: expected =!= but found =!.", m4.1)
      else some (makeToken l AVL_EQUAL, l)
  else if c = '<' then
    let m := matchChar l '='
    if m.2 then some (makeToken m.1 AVL_LESS_EQUAL, m.1)
    else
      let m := matchChar l '<'
      if m.2 then some (makeToken m.1 AVL_LEFT_SHIFT, m.1)
      else
        let m := matchChar l '>'
        if m.2 then some (makeToken m.1 AVL_NOT_EQUAL, m.1)
        else some (makeToken l AVL_LESS, l)
  else if c = '>' then
    let m := matchChar l '='
    if m.2 then some (makeToken m.1 AVL_GREATER_EQUAL, m.1)
    else
      let m := matchChar l '>'
      if m.2 then some (makeToken m.1 AVL_RIGHT_SHIFT, m.1)
      else some (makeToken l AVL_GREATER, l)
  else if c = '|' then
    let m := matchChar l '|'
    some (makeToken m.1 (if m.2 then AVL_LOGICAL_OR else AVL_VERTICAL_BAR), m.1)
  else if c = '&' then
    let m := matchChar l '&'
    some (makeToken m.1 (if m.2 then AVL_LOGICAL_AND else AVL_BITWISE_AND), m.1)
  else if c = '(' then some (makeToken l AVL_LEFT_PAREN, l)
  else if c = ')' then some (makeToken l AVL_RIGHT_PAREN, l)
  else if c = '[' then some (makeToken l AVL_LEFT_BRACKET, l)
  else if c = ']' then some (makeToken l AVL_RIGHT_PAREN, l)
  else if c = '{' then some (makeToken l AVL_LEFT_BRACE, l)
  else if c = '}' then some (makeToken l AVL_RIGHT_BRACE, l)
  else if c = '_' then
    if isAlpha (peek l) = true then some (identifier fuel l)
    else some (makeToken l AVL_UNDERSCORE, l)
  else if c = '\n' then
    let t := makeToken l AVL_NEWLINE
    some (t, { l with line := l.line + 1, column := 1, ignore_whitespace := false })
  else if c = '\t' then some (handleWhitespace fuel l false)
  else if c = ' ' then some (handleWhitespace fuel l true)
  else if isAlpha c = true then some (identifier fuel l)
  else if isDigit c = true then number fuel l
  else some (errorToken l "Unexpected character.", l)

/-- Tail of `lexToken` after the dedent-flushing logic: re-enable whitespace
skipping after a newline followed by a non-space, skip insignificant
whitespace, reset the token start, and dispatch on the next character. -/
def lexTokenRest (fuel : Nat) (l : Lexer) : Option (Token × Lexer) :=
  let l :=
    if peekBack l = '\n' ∧ peek l ≠ ' ' ∧ peek l ≠ '\t' then
      { l with ignore_whitespace := true }
    else l
  let l := if l.ignore_whitespace = true then skipWhitespace fuel l else l
  let l := { l with start := l.pos }
  if isAtEnd l = true then some (makeToken l AVL_EOF, l)
  else
    let a := advance l
    lexDispatch fuel a.2 a.1

/-- lexToken: one call of the C `lexToken`.  First drain pending dedentations,
then (right after a newline followed by a non-whitespace character) flush the
outstanding indentation count one DEDENT per call, then scan a real token.
`none` models the `exit(74)` path inside `number`. -/
def lexToken (fuel : Nat) (l : Lexer) : Option (Token × Lexer) :=
  if l.dedentation_count > 0 then
    some (makeToken l AVL_DEDENT,
      { l with dedentation_count := l.dedentation_count - 1,
               indentation_count := decSizeT l.indentation_count })
  else if peekBack l = '\n' ∧ peek l ≠ ' ' ∧ peek l ≠ '\t' ∧ peek l ≠ '\n' then
    let l1 := { l with dedentation_count := 0 }
    if l1.indentation_count > 0 then
      some (makeToken l1 AVL_DEDENT, { l1 with indentation_count := l1.indentation_count - 1 })
    else lexTokenRest fuel l1
  else lexTokenRest fuel l

/-- nextToken: `lexToken` with enough fuel for every internal loop (each loop
iteration advances the cursor, which never exceeds `src.length + 1`). -/
def nextToken (l : Lexer) : Option (Token × Lexer) :=
  lexToken (l.src.length + 2) l

/-- Kinds of the first `n` tokens produced by repeated `nextToken` calls.
The list is cut short only by the fuel `n` or by process termination; it does
not stop at EOF, so post-EOF behaviour is observable. -/
def tokenTypes : Nat → Lexer → List TokenType
  | 0, _ => []
  | n + 1, l =>
    match nextToken l with
    | none => []
    | some (t, l2) => t.type :: tokenTypes n l2

/-- Fresh lexer over a string, with a fixed file identifier. -/
def lexInit (s : String) : Lexer :=
  newLexer "main.avl" s.toList

/-- Kind of the first token of a source string (`none` on process exit). -/
def firstTokenType (s : String) : Option TokenType :=
  (nextToken (lexInit s)).map (fun p => p.1.type)

namespace FQN

/-- isAlpha from `src/src/common/fqn.c`: letter or underscore. -/
def isAlpha (c : Char) : Bool :=
  (decide ('a' ≤ c) && decide (c ≤ 'z')) || (decide ('A' ≤ c) && decide (c ≤ 'Z')) || c == '_'

/-- isDot from `fqn.c`. -/
def isDot (c : Char) : Bool :=
  c == '.'

/-- isSlash from `fqn.c`: both the forward slash and the backslash count as
path separators. -/
def isSlash (c : Char) : Bool :=
  c == '/' || c == '\\'

/-- Per-character transform applied by `nameFromPath`: separators become dots. -/
def slashToDot (c : Char) : Char :=
  if isSlash c then '.' else c

/-- Per-character transform applied by `pathFromName`: dots become forward
slashes (the C comment: Windows accepts the forward slash at the API level). -/
def dotToSlash (c : Char) : Char :=
  if isDot c then '/' else c

/-- isValidName from `fqn.c`: every character is a letter, an underscore or a
dot (the C index loop over the string, expressed over the character list). -/
def isValidName (name : List Char) : Bool :=
  name.all (fun c => isAlpha c || isDot c)

/-- isValidPath from `fqn.c`: every character is a letter, an underscore or a
slash (forward or backward). -/
def isValidPath (path : List Char) : Bool :=
  path.all (fun c => isAlpha c || isSlash c)

/-- nameFromPath from `fqn.c`: the C loop writes `name[i]` from `path[i]`
character by character, i.e. it maps `slashToDot` over the string. -/
def nameFromPath (path : List Char) : List Char :=
  path.map slashToDot

/-- pathFromName from `fqn.c`: maps `dotToSlash` over the string. -/
def pathFromName (name : List Char) : List Char :=
  name.map dotToSlash

/-- Letters and underscores are not separators. -/
theorem alpha_not_slash (c : Char) (h : isAlpha c = true) : isSlash c = false := by
  rcases eq_or_ne c '/' with rfl | h1
  · exact absurd h (by decide)
  rcases eq_or_ne c '\\' with rfl | h2
  · exact absurd h (by decide)
  simp [isSlash, h1, h2]

/-- Letters and underscores are not dots. -/
theorem alpha_not_dot (c : Char) (h : isAlpha c = true) : isDot c = false := by
  rcases eq_or_ne c '.' with rfl | h1
  · exact absurd h (by decide)
  simp [isDot, h1]

/-- On name characters (letters, underscores, dots) the two per-character
transforms cancel. -/
theorem slashToDot_dotToSlash (c : Char) (h : (isAlpha c || isDot c) = true) :
    slashToDot (dotToSlash c) = c := by
  rcases eq_or_ne c '.' with rfl | h1
  · decide
  have ha : isAlpha c = true := by
    rcases Bool.or_eq_true_iff.mp h with h2 | h2
    · exact h2
    · exact absurd (eq_of_beq h2) h1
  simp [dotToSlash, slashToDot, alpha_not_dot c ha, alpha_not_slash c ha]

/-- On path characters restricted to forward-slash separators the two
per-character transforms cancel (a backslash would not: it maps to a dot and
then to a forward slash). -/
theorem dotToSlash_slashToDot (c : Char) (h : (isAlpha c || c == '/') = true) :
    dotToSlash (slashToDot c) = c := by
  rcases eq_or_ne c '/' with rfl | h1
  · decide
  have ha : isAlpha c = true := by
    rcases Bool.or_eq_true_iff.mp h with h2 | h2
    · exact h2
    · exact absurd (eq_of_beq h2) h1
  simp [dotToSlash, slashToDot, alpha_not_dot c ha, alpha_not_slash c ha]

/-- Converting a valid name to a path and back is the identity. -/
theorem nameFromPath_pathFromName :
    ∀ name : List Char, isValidName name = true →
      nameFromPath (pathFromName name) = name
  | [], _ => rfl
  | c :: cs, h => by
    rw [isValidName, List.all_cons, Bool.and_eq_true] at h
    show slashToDot (dotToSlash c) :: nameFromPath (pathFromName cs) = c :: cs
    rw [slashToDot_dotToSlash c h.1, nameFromPath_pathFromName cs h.2]

/-- Converting a path whose separators are all forward slashes to a name and
back is the identity. -/
theorem pathFromName_nameFromPath :
    ∀ path : List Char, path.all (fun c => isAlpha c || c == '/') = true →
      pathFromName (nameFromPath path) = path
  | [], _ => rfl
  | c :: cs, h => by
    rw [List.all_cons, Bool.and_eq_true] at h
    show dotToSlash (slashToDot c) :: pathFromName (nameFromPath cs) = c :: cs
    rw [dotToSlash_slashToDot c h.1, pathFromName_nameFromPath cs h.2]

end FQN

/-- C1: the claim says that while a bracket nesting counter is positive,
newlines are consumed as plain whitespace and no NEWLINE token is emitted, so
lexing `"f(1,\n2)\n"` would produce no NEWLINE for the newline inside the
parentheses.  The checked-in `lexer.c` maintains no bracket counters at all
(although `lexer.h` declares and documents `parens_levels`, `braces_levels`
and `brackets_levels` for exactly this purpose), and the token stream contains
a NEWLINE token for the newline inside the parentheses: the fifth token below. -/
theorem c1_newline_inside_parens :
    tokenTypes 9 (lexInit "f(1,\n2)\n") =
      [AVL_IDENTIFIER, AVL_LEFT_PAREN, AVL_CLASSICAL_INT, AVL_COMMA, AVL_NEWLINE,
       AVL_CLASSICAL_INT, AVL_RIGHT_PAREN, AVL_NEWLINE, AVL_EOF] := by
  decide

/-- C2: the claim says the total DEDENT count equals the total INDENT count
for every input once EOF-padding dedents are included.  On
`"a\n    b\n            c\n"` the jump from indentation width 4 to width 12
emits a single INDENT token but sets `indentation_count` to the absolute
level 3, and the end-of-file flush then emits three DEDENT tokens: the stream
holds 2 INDENTs and 3 DEDENTs, contradicting the balance the code's own
comment ("This is required to emit balanced dedents that correspond to
emitted indents") promises. -/
theorem c2_indent_dedent_imbalance :
    (tokenTypes 12 (lexInit "a\n    b\n            c\n")).count AVL_INDENT = 2 ∧
    (tokenTypes 12 (lexInit "a\n    b\n            c\n")).count AVL_DEDENT = 3 := by
  decide

/-- C3: the maximal-munch operator table behaves as claimed on `=`, `==`,
`===`, `=!=`, on `=!` (one ERROR token, not two tokens), on `-`, `->`, on
minus-then-slash (namespace open) and slash-then-minus (namespace close),
but a lone `/` yields `AVL_MINUS`, not the `AVL_DIV` kind that
`token_type.h` documents for `/`. -/
theorem c3_operator_table :
    firstTokenType "=" = some AVL_EQUAL ∧
    firstTokenType "==" = some AVL_EQUAL_EQUAL ∧
    firstTokenType "===" = some AVL_MATCH ∧
    firstTokenType "=!=" = some AVL_NOT_MATCH ∧
    tokenTypes 2 (lexInit "=!") = [AVL_ERROR, AVL_EOF] ∧
    firstTokenType "-" = some AVL_MINUS ∧
    firstTokenType "->" = some AVL_RETURN_TYPE ∧
    firstTokenType "-/" = some AVL_NS_OPEN ∧
    firstTokenType "/-" = some AVL_NS_CLOSE ∧
    firstTokenType "/" = some AVL_MINUS ∧
    AVL_MINUS ≠ AVL_DIV := by
  decide

/-- C4: the claim says an invalid trailing format letter always produces an
ERROR token naming the valid letters and never terminates the process.  For
integer literals that is what happens (second conjunct, on `"15x"`), but for
a fractional classical literal such as `"1.5x"` the format chain in `number`
has no `else` branch, control falls through to `fprintf` + `exit(74)`, and
the process terminates — modelled by `none`. -/
theorem c4_fractional_format_exit :
    nextToken (lexInit "1.5x") = none ∧
    firstTokenType "15x" = some AVL_ERROR := by
  decide

/-- C5 counterexample: the claim says that after the comment skipper runs
over a line comment the cursor sits on the newline (offset 5 of
`"-- hi\nx"`) and that newline is then tokenized as NEWLINE.  In fact the
skipper leaves the cursor at offset 6, one past the newline, and the token
stream for this input contains no NEWLINE token at all. -/
theorem c5_comment_newline_counterexample :
    (skipSingleComment 9 (lexInit "-- hi\nx")).pos = 6 ∧
    peekAt ("-- hi\nx".toList) 5 = '\n' ∧
    tokenTypes 2 (lexInit "-- hi\nx") = [AVL_IDENTIFIER, AVL_EOF] := by
  decide

/-- C5 (amended): a line comment's scanning loop stops at the next newline,
but `skipSingleComment` then consumes that newline as part of the comment
(updating the line counter), so the cursor ends one past the newline and no
NEWLINE token is emitted for it. -/
theorem c5_comment_newline_amended :
    (skipSingleCommentLoop 9 (lexInit "-- hi\nx")).pos = 5 ∧
    (skipSingleComment 9 (lexInit "-- hi\nx")).pos = 6 ∧
    (skipSingleComment 9 (lexInit "-- hi\nx")).line = 2 ∧
    tokenTypes 2 (lexInit "-- hi\nx") = [AVL_IDENTIFIER, AVL_EOF] := by
  decide

/-- C6 counterexample: the claim says an unterminated block comment is
reported as an ERROR-kind token.  On `"-[ abc"` the very first next-token
call already returns an EOF-kind token — no ERROR token is ever produced. -/
theorem c6_unterminated_comment_counterexample :
    (nextToken (lexInit "-[ abc")).map (fun p => p.1.type) = some AVL_EOF ∧
    AVL_EOF ≠ AVL_ERROR := by
  decide

/-- C6 (amended): on end-of-input inside an open block comment the lexer
reports the error by printing a message naming the line where the comment
started to the standard-error stream (modelled by `stderrLog`); no ERROR
token is produced, and the same and all subsequent next-token calls yield
EOF-kind tokens. -/
theorem c6_unterminated_comment_amended :
    (nextToken (lexInit "-[ abc")).map (fun p => (p.1.type, p.2.stderrLog)) =
      some (AVL_EOF, ["Unterminated multi line comment starting at line 1."]) ∧
    tokenTypes 3 (lexInit "-[ abc") = [AVL_EOF, AVL_EOF, AVL_EOF] := by
  decide

/-- C7: the claim says that once next-token yields an EOF-kind token, all
subsequent calls also yield EOF.  On `"x\n y -- c\n"` the line comment
consumes the final newline inside `skipWhitespace`, so the fifth call reaches
end-of-input and returns EOF while `indentation_count` is still 1 and the
character before the cursor is a newline; the sixth call then flushes that
count and returns a DEDENT token after the EOF. -/
theorem c7_dedent_after_eof :
    tokenTypes 8 (lexInit "x\n y -- c\n") =
      [AVL_IDENTIFIER, AVL_NEWLINE, AVL_INDENT, AVL_IDENTIFIER,
       AVL_EOF, AVL_DEDENT, AVL_EOF, AVL_EOF] := by
  decide

/-- C8 counterexample: `isSlash` accepts the backslash as a separator, so
`['a', '\\', 'b']` is a valid path, but converting it to a name and back
yields `['a', '/', 'b']`: the path-to-name-to-path direction of the claimed
inverse property fails on backslash separators. -/
theorem c8_fqn_backslash_counterexample :
    FQN.isValidPath ['a', '\\', 'b'] = true ∧
    FQN.pathFromName (FQN.nameFromPath ['a', '\\', 'b']) ≠ ['a', '\\', 'b'] := by
  decide

/-- C8 (amended): the two FQN transforms are mutual inverses with the path
side restricted to forward-slash separators: name-to-path-to-name is the
identity on every string of letters, underscores and dots, and
path-to-name-to-path is the identity on every string of letters, underscores
and forward slashes (a backslash separator is instead normalized to a
forward slash, as the counterexample shows). -/
theorem c8_fqn_roundtrip (name path : List Char)
    (hn : FQN.isValidName name = true)
    (hp : path.all (fun c => FQN.isAlpha c || c == '/') = true) :
    FQN.nameFromPath (FQN.pathFromName name) = name ∧
    FQN.pathFromName (FQN.nameFromPath path) = path :=
  ⟨FQN.nameFromPath_pathFromName name hn, FQN.pathFromName_nameFromPath path hp⟩

/-- C8 witness: the round-trip theorem applied at the concrete name `a.b`
and the concrete path `a/b`. -/
theorem c8_fqn_roundtrip_witness :
    FQN.nameFromPath (FQN.pathFromName ['a', '.', 'b']) = ['a', '.', 'b'] ∧
    FQN.pathFromName (FQN.nameFromPath ['a', '/', 'b']) = ['a', '/', 'b'] :=
  c8_fqn_roundtrip ['a', '.', 'b'] ['a', '/', 'b'] (by decide) (by decide)

/-- C9: lexing `]` produces a token of kind `AVL_RIGHT_PAREN`, the same kind
as `)`, even though the distinct kind `AVL_RIGHT_BRACKET` exists in the
token-kind enumeration — a consumer cannot tell `]` from `)` by kind. -/
theorem c9_right_bracket_token :
    firstTokenType "]" = some AVL_RIGHT_PAREN ∧
    firstTokenType ")" = some AVL_RIGHT_PAREN ∧
    AVL_RIGHT_BRACKET ≠ AVL_RIGHT_PAREN := by
  decide

/-- C10: the claim says the cursor never advances past the terminating NUL.
On `"-[-[]-"` (length 6, NUL at offset 6) the close marker `]-` of a nested
comment ends exactly at end-of-input: `skipMultiComment` advances twice over
it and then once more at the bottom of its loop, leaving the cursor at
offset 7 — one past the NUL — before the EOF token is produced. -/
theorem c10_cursor_past_nul :
    (nextToken (lexInit "-[-[]-")).map (fun p => p.2.pos) = some 7 ∧
    ("-[-[]-".toList).length = 6 := by
  decide

end Avalon
